import Mathlib

/-!
# Shallow embedding of EcolysisCMD's population-projection core

This file embeds, in Lean 4, the core of the `EcolysisCMD` Rust crate:

* `src/populations/population_level_simulation.rs`: `PopulationVector`,
  `PopulationMatrix` (with its validating factory `build` and the
  matrix-vector projection `project_vector`), `PvaDeterministicPopulation`
  (with `build` and `deterministic_projection`) and
  `PvaDeterministicOutput`;
* `src/lib.rs`, module `population_based_modelling`: the legacy
  `popmatrix_by_popvector` function with its own `PopulationVector`,
  `LifestageSurvivalVector` and `PopulationMatrix` types.

Modelling decisions:

* Rust `f64` values are embedded as exact rationals (`ℚ`); the embedding
  keeps the source's evaluation order (left-to-right accumulation), so every
  algebraic/structural statement below is about the source's computation
  shape, with ideal (rounding-free) arithmetic.
* Rust `u8` fields are embedded as `Nat` together with the source's
  truncating cast: `vector.len() as u8` becomes `vector.length % 256`.
* A Rust function that can return `Result` and can also panic is embedded
  as a `RustResult` value with three constructors: `ok`, `err` (the
  `Err(&'static str)` branch) and `panicked` (an uncaught panic, carrying
  the panic message).  Out-of-bounds `Vec` indexing and `.expect` on
  `None`/`Err` produce `panicked`.
-/

set_option maxRecDepth 8000

/-- Result of running a fallible Rust function: `Ok`, `Err`, or a panic
(via `expect` or out-of-bounds indexing) with its message. -/
inductive RustResult (ε α : Type) where
  | ok : α → RustResult ε α
  | err : ε → RustResult ε α
  | panicked : String → RustResult ε α
deriving DecidableEq, Repr

namespace RustResult

/-- Rust `Result::is_ok`, extended to treat a panic as not-ok. -/
def isOk {ε α : Type} : RustResult ε α → Bool
  | .ok _ => true
  | _ => false

end RustResult

namespace population_level_simulation

/-- Embeds the Rust struct `PopulationVector { vector: Vec<f64>,
lifestage_count: u8 }`. -/
structure PopulationVector where
  vector : List ℚ
  lifestage_count : Nat
deriving DecidableEq, Repr

namespace PopulationVector

/-- Rust `PopulationVector::new`: stores the list and caches
`vector.len() as u8`, i.e. the length truncated mod 2^8. -/
def new (vector : List ℚ) : PopulationVector :=
  { lifestage_count := vector.length % 256, vector := vector }

/-- Rust `PopulationVector::get_value_at_index`: `self.vector.get(index)`. -/
def get_value_at_index (v : PopulationVector) (index : Nat) : Option ℚ :=
  v.vector.get? index

/-- Rust `PopulationVector::get_vector`. -/
def get_vector (v : PopulationVector) : List ℚ :=
  v.vector

/-- Rust `PopulationVector::get_lifestage_count`. -/
def get_lifestage_count (v : PopulationVector) : Nat :=
  v.lifestage_count

end PopulationVector

/-- Embeds the Rust struct `PopulationMatrix { matrix: Vec<Vec<f64>>,
lifestage_count: u8 }`. -/
structure PopulationMatrix where
  matrix : List (List ℚ)
  lifestage_count : Nat
deriving DecidableEq, Repr

namespace PopulationMatrix

/-- The ragged-rows loop of `PopulationMatrix::build`:
`for count in 1..input.len() { if input[count].len() != input[count-1].len()
{ return Err(..) } }`, i.e. every adjacent pair of rows has equal length. -/
def rowsConsistent : List (List ℚ) → Bool
  | a :: b :: rest => decide (b.length = a.length) && rowsConsistent (b :: rest)
  | _ => true

/-- Rust `PopulationMatrix::build`.  The Rust code first evaluates
`input[0].len()`, which panics on an empty `Vec` (there is no empty-input
guard in the source); then compares `input.len()` with it; then runs the
adjacent-rows length check; on success stores the rows and
`input.len() as u8`. -/
def build (input : List (List ℚ)) : RustResult String PopulationMatrix :=
  match input with
  | [] => .panicked "index out of bounds: the len is 0 but the index is 0"
  | first :: rest =>
    if (first :: rest).length = first.length then
      if rowsConsistent (first :: rest) then
        .ok { lifestage_count := (first :: rest).length % 256,
              matrix := first :: rest }
      else
        .err "All sub-vectors must be of matching lengths to construct a population matrix."
    else
      .err "Number of items in lifestages must match number of inputted sub-vectors."

/-- Rust `PopulationMatrix::get_lifestage_count`. -/
def get_lifestage_count (m : PopulationMatrix) : Nat :=
  m.lifestage_count

/-- Rust `PopulationMatrix::get_matrix`. -/
def get_matrix (m : PopulationMatrix) : List (List ℚ) :=
  m.matrix

/-- Inner loop of `project_vector`:
`for (count2, item) in lifestage.iter().enumerate()
  { storage += item * vector.get_value_at_index(count2).expect(..) }`.
`i` is the running index `count2`, `acc` the accumulator `storage`;
`none` models the `.expect("Index out of bounds.")` panic. -/
def dotRowAux (v : PopulationVector) : Nat → ℚ → List ℚ → Option ℚ
  | _, acc, [] => some acc
  | i, acc, item :: rest =>
    match v.get_value_at_index i with
    | some x => dotRowAux v (i + 1) (acc + item * x) rest
    | none => none

/-- Outer loop of `project_vector`: one accumulated dot product per row,
pushed in row order; a panic in any row aborts the whole loop. -/
def projectRows (v : PopulationVector) : List (List ℚ) → Option (List ℚ)
  | [] => some []
  | row :: rest =>
    match dotRowAux v 0 0 row with
    | none => none
    | some s =>
      match projectRows v rest with
      | none => none
      | some l => some (s :: l)

/-- Rust `PopulationMatrix::project_vector`: the `u8` lifestage counts are
compared first; on mismatch the function returns `Err` at once; otherwise
each row is folded against the vector left-to-right and the results are
wrapped in a fresh `PopulationVector` via `PopulationVector::new`. -/
def project_vector (m : PopulationMatrix) (v : PopulationVector) :
    RustResult String PopulationVector :=
  if m.lifestage_count ≠ v.get_lifestage_count then
    .err "the length of inputted population matrix and population vector do not match."
  else
    match projectRows v m.matrix with
    | none => .panicked "Index out of bounds."
    | some l => .ok (PopulationVector.new l)

end PopulationMatrix

/-- Embeds `PvaDeterministicPopulation { initial_population, projection_matrix }`. -/
structure PvaDeterministicPopulation where
  initial_population : PopulationVector
  projection_matrix : PopulationMatrix
deriving DecidableEq, Repr

/-- Embeds `PvaDeterministicOutput { result: Vec<PopulationVector> }`. -/
structure PvaDeterministicOutput where
  result : List PopulationVector
deriving DecidableEq, Repr

namespace PvaDeterministicOutput

/-- Rust `PvaDeterministicOutput::new`. -/
def new (simulation_output : List PopulationVector) : PvaDeterministicOutput :=
  { result := simulation_output }

/-- Rust `PvaDeterministicOutput::return_output`. -/
def return_output (o : PvaDeterministicOutput) : List PopulationVector :=
  o.result

end PvaDeterministicOutput

namespace PvaDeterministicPopulation

/-- Rust `PvaDeterministicPopulation::build`: rejects the pair when the cached
`u8` lifestage counts differ. -/
def build (init_pop : PopulationVector) (matrix : PopulationMatrix) :
    RustResult String PvaDeterministicPopulation :=
  if matrix.get_lifestage_count ≠ init_pop.get_lifestage_count then
    .err "Population vector size does not match matrices."
  else
    .ok { initial_population := init_pop, projection_matrix := matrix }

/-- The projection loop of `deterministic_projection`:
`for _ in 1..=iterations { active = matrix.project_vector(&active).expect(..);
result.push(active.clone()) }`.  An `Err` from `project_vector` panics
through `.expect` with the source's message; a panic inside
`project_vector` propagates unchanged. -/
def projectionLoop (m : PopulationMatrix) :
    PopulationVector → Nat → RustResult String (List PopulationVector)
  | _, 0 => .ok []
  | v, n + 1 =>
    match m.project_vector v with
    | .ok w =>
      match projectionLoop m w n with
      | .ok rest => .ok (w :: rest)
      | .err e => .err e
      | .panicked p => .panicked p
    | .err _ =>
      .panicked "This error should not be possible. Mismatched Vector and Matrix lengths, or non-square Matrix. Please file a bug report."
    | .panicked p => .panicked p

/-- Rust `PvaDeterministicPopulation::deterministic_projection`: runs the loop
`iterations` times starting from a clone of the initial population and
wraps the collected vectors in a `PvaDeterministicOutput`. -/
def deterministic_projection (pop : PvaDeterministicPopulation)
    (iterations : Nat) : RustResult String PvaDeterministicOutput :=
  match projectionLoop pop.projection_matrix pop.initial_population iterations with
  | .ok l => .ok (PvaDeterministicOutput.new l)
  | .err e => .err e
  | .panicked p => .panicked p

end PvaDeterministicPopulation

end population_level_simulation

namespace population_based_modelling

/-- Embeds `population_based_modelling::PopulationVector` from `lib.rs`. -/
structure PopulationVector where
  vector : List ℚ
  lifestage_count : Nat
deriving DecidableEq, Repr

namespace PopulationVector

/-- Rust `PopulationVector::new` (`lib.rs` variant). -/
def new (vector : List ℚ) : PopulationVector :=
  { lifestage_count := vector.length % 256, vector := vector }

/-- Rust `PopulationVector::get_value_at_index` (`lib.rs` variant). -/
def get_value_at_index (v : PopulationVector) (index : Nat) : Option ℚ :=
  v.vector.get? index

/-- Rust `PopulationVector::get_vector` (`lib.rs` variant). -/
def get_vector (v : PopulationVector) : List ℚ :=
  v.vector

end PopulationVector

/-- Embeds `LifestageSurvivalVector` from `lib.rs`. -/
structure LifestageSurvivalVector where
  vector : List ℚ
  lifestage_count : Nat
deriving DecidableEq, Repr

namespace LifestageSurvivalVector

/-- Rust `LifestageSurvivalVector::new`. -/
def new (vector : List ℚ) : LifestageSurvivalVector :=
  { lifestage_count := vector.length % 256, vector := vector }

/-- Rust `LifestageSurvivalVector::get_vector`. -/
def get_vector (v : LifestageSurvivalVector) : List ℚ :=
  v.vector

end LifestageSurvivalVector

/-- Embeds `population_based_modelling::PopulationMatrix`: a plain list of
`LifestageSurvivalVector` rows. -/
structure PopulationMatrix where
  matrix : List LifestageSurvivalVector
deriving DecidableEq, Repr

/-- Loop body of `popmatrix_by_popvector`:
`for (count, lifestage) in matrix.matrix.iter().enumerate()
  { total = lifestage.get_vector().iter().sum();
    push(total * vector.get_value_at_index(count).expect(..)) }`.
`count` is the running row index; `none` models the `.expect` panic. -/
def rowTotalsAux (v : PopulationVector) :
    Nat → List LifestageSurvivalVector → Option (List ℚ)
  | _, [] => some []
  | count, lifestage :: rest =>
    let total : ℚ := lifestage.get_vector.foldl (· + ·) 0
    match v.get_value_at_index count with
    | none => none
    | some x =>
      match rowTotalsAux v (count + 1) rest with
      | none => none
      | some l => some (total * x :: l)

/-- Rust `popmatrix_by_popvector` from `lib.rs`: compares the *actual* lengths
(`matrix.matrix.len() != vector.vector.len()`), then pushes
`sum(row) * vector[row index]` for each row. -/
def popmatrix_by_popvector (matrix : PopulationMatrix)
    (vector : PopulationVector) : RustResult String PopulationVector :=
  if matrix.matrix.length ≠ vector.vector.length then
    .err "the length of inputted population matrix and population vector do not match."
  else
    match rowTotalsAux vector 0 matrix.matrix with
    | none =>
      .panicked "Unexpected Error: the length of inputted population matrix and population vector do not match."
    | some l => .ok (PopulationVector.new l)

/-- The concrete matrix of the `lib.rs` unit test `matrix_multiplication`. -/
def libExampleMatrix : PopulationMatrix :=
  { matrix := [LifestageSurvivalVector.new [0.25, 0.001, 10],
               LifestageSurvivalVector.new [100, 0.4346, 2],
               LifestageSurvivalVector.new [66, 117, 4]] }

/-- The concrete vector of the `lib.rs` unit test `matrix_multiplication`. -/
def libExampleVector : PopulationVector := PopulationVector.new [150, 200, 33]

end population_based_modelling

namespace population_level_simulation

/-- Left-to-right dot product: the sum `row[0]*vec[0] + row[1]*vec[1] + ...`
accumulated from the left starting at `0`, exactly the order in which the
source's inner loop adds the products. -/
def dotLR (row vec : List ℚ) : ℚ :=
  (List.zipWith (· * ·) row vec).foldl (· + ·) 0

/-- Mathematical iterate of the projection step: `projectIter m v k` is the
stage vector after `k` applications of `project_vector` to `v` (a failing
step, which never occurs in the situations proved below, leaves the vector
unchanged). -/
def projectIter (m : PopulationMatrix) (v : PopulationVector) : Nat → PopulationVector
  | 0 => v
  | n + 1 =>
    match m.project_vector (projectIter m v n) with
    | .ok w => w
    | _ => projectIter m v n

/-- Invariant bundle carried through the projection loop: the cached `u8`
count is the truncated length, and the true length matches the matrix's
true row count. -/
def VecShape (m : PopulationMatrix) (v : PopulationVector) : Prop :=
  v.lifestage_count = v.vector.length % 256 ∧ v.vector.length = m.matrix.length

end population_level_simulation

namespace population_level_simulation

/-- Projection-matrix rows of the worked example in the repository's tests:
`[[0.0,0.0,0.1],[0.6,0.8,0.0],[0.0,0.8,0.95]]`. -/
def exampleRows : List (List ℚ) := [[0, 0, 0.1], [0.6, 0.8, 0], [0, 0.8, 0.95]]

/-- The matrix that `build exampleRows` produces. -/
def exampleMatrix : PopulationMatrix := { matrix := exampleRows, lifestage_count := 3 }

/-- Initial stage vector `[40.0, 20.0, 100.0]` of the worked example. -/
def exampleVector : PopulationVector := PopulationVector.new [40, 20, 100]

/-- The deterministic population of the worked example. -/
def examplePop : PvaDeterministicPopulation :=
  { initial_population := exampleVector, projection_matrix := exampleMatrix }

/-- A square 256-by-256 zero matrix: enough rows that `len as u8` wraps. -/
def bigRows : List (List ℚ) := List.replicate 256 (List.replicate 256 0)

/-- Extracts the matrix from a successful `build` (fallback never used in
the statements below, which also assert that `build` succeeded). -/
def getBuiltMatrix : RustResult String PopulationMatrix → PopulationMatrix
  | .ok m => m
  | _ => { matrix := [], lifestage_count := 0 }

/-- The matrix `build` makes from the 256 rows: `lifestage_count` wraps to `0`. -/
def truncMatrix : PopulationMatrix := getBuiltMatrix (PopulationMatrix.build bigRows)

/-- Pairs the 256-row matrix with the empty vector; both cached `u8` counts
are `0`, so the constructor accepts the pair. -/
def truncPop : PvaDeterministicPopulation :=
  { initial_population := PopulationVector.new [], projection_matrix := truncMatrix }

/-- All stage vectors of a projection output, as raw lists. -/
def outputVectors : RustResult String PvaDeterministicOutput → List (List ℚ)
  | .ok o => o.return_output.map PopulationVector.get_vector
  | _ => []

/-- Rounding to one decimal place the way the repository's tests do it:
`(x * 10.0).round() / 10.0` (for the non-negative values arising here). -/
def roundTenth (q : ℚ) : ℚ := (⌊q * 10 + 1 / 2⌋ : ℤ) / 10

end population_level_simulation

/-!
## Derived characterizations

Lemmas relating the loop-shaped definitions above to direct list-level
descriptions (left-to-right dot products, adjacent-length chains).
-/

namespace population_level_simulation

theorem foldl_add_shift (l : List ℚ) : ∀ (a b : ℚ),
    l.foldl (· + ·) (a + b) = a + l.foldl (· + ·) b := by
  induction l with
  | nil => intro a b; rfl
  | cons x l ih =>
    intro a b
    show l.foldl (· + ·) (a + b + x) = a + l.foldl (· + ·) (b + x)
    rw [add_assoc, ih]

theorem dotLR_nil (vec : List ℚ) : dotLR [] vec = 0 := by
  cases vec <;> rfl

theorem dotLR_cons (item x : ℚ) (rest tail : List ℚ) :
    dotLR (item :: rest) (x :: tail) = item * x + dotLR rest tail := by
  show (List.zipWith (· * ·) rest tail).foldl (· + ·) (0 + item * x)
      = item * x + dotLR rest tail
  rw [zero_add, ← add_zero (item * x), foldl_add_shift, add_zero]
  rfl

theorem get?_drop_cons {α : Type} : ∀ (l : List α) (i : Nat) (x : α),
    l.get? i = some x → l.drop i = x :: l.drop (i + 1)
  | a :: l, 0, x, h => by
    simp only [List.get?] at h
    cases h
    rfl
  | a :: l, i + 1, x, h => by
    simp only [List.get?] at h
    show (a :: l).drop (i + 1) = x :: l.drop (i + 1)
    exact get?_drop_cons l i x h
  | [], i, x, h => by cases i <;> simp [List.get?] at h

theorem get?_isSome_of_lt {α : Type} : ∀ (l : List α) (i : Nat),
    i < l.length → ∃ x, l.get? i = some x
  | a :: _, 0, _ => ⟨a, rfl⟩
  | _ :: l, i + 1, h => get?_isSome_of_lt l i (Nat.lt_of_succ_lt_succ h)

/-- The inner accumulation loop of `project_vector` computes
`acc + dotLR row (vector from index i on)` whenever every index it will
touch is in bounds. -/
theorem dotRowAux_eq (v : PopulationVector) :
    ∀ (row : List ℚ) (i : Nat) (acc : ℚ),
      i + row.length ≤ v.vector.length →
      PopulationMatrix.dotRowAux v i acc row
        = some (acc + dotLR row (v.vector.drop i)) := by
  intro row
  induction row with
  | nil =>
    intro i acc _
    show some acc = some (acc + dotLR [] (v.vector.drop i))
    rw [dotLR_nil, add_zero]
  | cons item rest ih =>
    intro i acc h
    rw [List.length_cons] at h
    obtain ⟨x, hx⟩ := get?_isSome_of_lt v.vector i (by omega)
    have hx2 : v.get_value_at_index i = some x := hx
    simp only [PopulationMatrix.dotRowAux, hx2]
    rw [get?_drop_cons v.vector i x hx, dotLR_cons]
    rw [ih (i + 1) (acc + item * x) (by omega)]
    rw [add_assoc]

/-- The outer loop of `project_vector` computes one left-to-right dot
product per row when every row fits inside the vector. -/
theorem projectRows_eq (v : PopulationVector) :
    ∀ (rows : List (List ℚ)),
      (∀ r ∈ rows, r.length ≤ v.vector.length) →
      PopulationMatrix.projectRows v rows
        = some (rows.map fun r => dotLR r v.vector) := by
  intro rows
  induction rows with
  | nil => intro _; rfl
  | cons row rest ih =>
    intro hb
    show (match PopulationMatrix.dotRowAux v 0 0 row with
          | none => none
          | some s =>
            match PopulationMatrix.projectRows v rest with
            | none => none
            | some l => some (s :: l))
        = some ((row :: rest).map fun r => dotLR r v.vector)
    rw [dotRowAux_eq v row 0 0
        (by simpa using hb row (List.mem_cons_self row rest))]
    rw [ih (fun r hr => hb r (List.mem_cons_of_mem row hr))]
    simp [List.drop_zero]

theorem projectRows_length (v : PopulationVector) :
    ∀ (rows : List (List ℚ)) (l : List ℚ),
      PopulationMatrix.projectRows v rows = some l → l.length = rows.length := by
  intro rows
  induction rows with
  | nil =>
    intro l h
    cases h
    rfl
  | cons row rest ih =>
    intro l h
    unfold PopulationMatrix.projectRows at h
    cases hd : PopulationMatrix.dotRowAux v 0 0 row with
    | none => rw [hd] at h; cases h
    | some s =>
      rw [hd] at h
      cases hr : PopulationMatrix.projectRows v rest with
      | none => rw [hr] at h; cases h
      | some l2 =>
        rw [hr] at h
        cases h
        simp [ih l2 hr]

/-- Under the code's own dimension check plus in-bounds rows,
`project_vector` succeeds and returns exactly the list of left-to-right
row dot products, wrapped via `PopulationVector.new`. -/
theorem project_vector_ok (m : PopulationMatrix) (v : PopulationVector)
    (hc : m.lifestage_count = v.lifestage_count)
    (hb : ∀ r ∈ m.matrix, r.length ≤ v.vector.length) :
    m.project_vector v
      = .ok (PopulationVector.new (m.matrix.map fun r => dotLR r v.vector)) := by
  unfold PopulationMatrix.project_vector
  rw [if_neg (by simp [PopulationVector.get_lifestage_count, hc])]
  rw [projectRows_eq v m.matrix hb]

/-- Inversion: a successful `project_vector` call can only arise from the
matching-counts branch and wraps the row-results list with `new`. -/
theorem project_vector_ok_inv (m : PopulationMatrix) (v : PopulationVector)
    (w : PopulationVector) (h : m.project_vector v = .ok w) :
    m.lifestage_count = v.lifestage_count ∧
    ∃ l, PopulationMatrix.projectRows v m.matrix = some l
      ∧ w = PopulationVector.new l := by
  unfold PopulationMatrix.project_vector at h
  by_cases hc : m.lifestage_count = v.get_lifestage_count
  · rw [if_neg (by simp [hc])] at h
    refine ⟨hc, ?_⟩
    cases hpr : PopulationMatrix.projectRows v m.matrix with
    | none => rw [hpr] at h; cases h
    | some l =>
      rw [hpr] at h
      cases h
      exact ⟨l, rfl, rfl⟩
  · rw [if_pos (by simpa using hc)] at h
    cases h

end population_level_simulation

namespace population_level_simulation

theorem projectIter_zero (m : PopulationMatrix) (v : PopulationVector) :
    projectIter m v 0 = v := rfl

theorem projectIter_one (m : PopulationMatrix) (v w : PopulationVector)
    (h : m.project_vector v = .ok w) : projectIter m v 1 = w := by
  simp [projectIter, h]

theorem projectIter_shift (m : PopulationMatrix) (v w : PopulationVector)
    (h : m.project_vector v = .ok w) :
    ∀ k, projectIter m v (k + 1) = projectIter m w k := by
  intro k
  induction k with
  | zero => exact projectIter_one m v w h
  | succ k ih =>
    show (match m.project_vector (projectIter m v (k + 1)) with
          | .ok w2 => w2
          | _ => projectIter m v (k + 1))
        = projectIter m w (k + 1)
    rw [ih]
    rfl

/-- A square, invariant-respecting matrix projects an invariant-respecting
vector to a fully determined new vector, and the result respects the
invariants again. -/
theorem step_ok (m : PopulationMatrix) (v : PopulationVector)
    (hm : m.lifestage_count = m.matrix.length % 256)
    (hsq : ∀ r ∈ m.matrix, r.length = m.matrix.length)
    (hv : VecShape m v) :
    m.project_vector v
      = .ok (PopulationVector.new (m.matrix.map fun r => dotLR r v.vector)) ∧
    VecShape m (PopulationVector.new (m.matrix.map fun r => dotLR r v.vector)) := by
  obtain ⟨hv1, hv2⟩ := hv
  constructor
  · apply project_vector_ok m v
    · rw [hm, hv1, hv2]
    · intro r hr
      rw [hsq r hr, ← hv2]
  · constructor
    · rfl
    · simp [PopulationVector.new]

/-- The projection loop, under the square-shape invariants, returns exactly
the list of iterates `projectIter m v 1, ..., projectIter m v n`. -/
theorem projectionLoop_eq (m : PopulationMatrix)
    (hm : m.lifestage_count = m.matrix.length % 256)
    (hsq : ∀ r ∈ m.matrix, r.length = m.matrix.length) :
    ∀ (n : Nat) (v : PopulationVector), VecShape m v →
      PvaDeterministicPopulation.projectionLoop m v n
        = .ok ((List.range n).map fun k => projectIter m v (k + 1)) := by
  intro n
  induction n with
  | zero => intro v _; rfl
  | succ n ih =>
    intro v hv
    obtain ⟨hstep, hshape⟩ := step_ok m v hm hsq hv
    simp only [PvaDeterministicPopulation.projectionLoop, hstep, ih _ hshape]
    rw [List.range_succ_eq_map]
    simp only [List.map_cons, List.map_map]
    congr 1
    congr 1
    · exact (projectIter_one m v _ hstep).symm
    · apply List.map_congr_left
      intro k _
      show projectIter m _ (k + 1) = projectIter m v (k + 1 + 1)
      exact (projectIter_shift m v _ hstep (k + 1)).symm

/-- Every iterate keeps the shape invariants, and the projection step
succeeds at every iterate. -/
theorem projectIter_shape (m : PopulationMatrix) (v : PopulationVector)
    (hm : m.lifestage_count = m.matrix.length % 256)
    (hsq : ∀ r ∈ m.matrix, r.length = m.matrix.length)
    (hv : VecShape m v) :
    ∀ k, VecShape m (projectIter m v k) ∧
      RustResult.isOk (m.project_vector (projectIter m v k)) = true := by
  intro k
  induction k with
  | zero =>
    refine ⟨hv, ?_⟩
    show (m.project_vector v).isOk = true
    rw [(step_ok m v hm hsq hv).1]
    rfl
  | succ k ih =>
    obtain ⟨hshape, _⟩ := ih
    obtain ⟨hstep, hshape2⟩ := step_ok m (projectIter m v k) hm hsq hshape
    have hit : projectIter m v (k + 1)
        = PopulationVector.new (m.matrix.map fun r => dotLR r (projectIter m v k).vector) := by
      show (match m.project_vector (projectIter m v k) with
            | .ok w => w
            | _ => projectIter m v k)
          = PopulationVector.new (m.matrix.map fun r => dotLR r (projectIter m v k).vector)
      rw [hstep]
    refine ⟨hit ▸ hshape2, ?_⟩
    rw [hit, (step_ok m _ hm hsq hshape2).1]
    rfl

/-- The code's adjacent-rows check `rowsConsistent` holds exactly when every
row's length equals the previous row's length, phrased with `List.Chain'`. -/
theorem rowsConsistent_iff_chain :
    ∀ (rows : List (List ℚ)),
      PopulationMatrix.rowsConsistent rows = true
        ↔ List.Chain' (fun a b : List ℚ => b.length = a.length) rows
  | [] => by simp [PopulationMatrix.rowsConsistent]
  | [a] => by simp [PopulationMatrix.rowsConsistent]
  | a :: b :: rest => by
    have ih := rowsConsistent_iff_chain (b :: rest)
    simp [PopulationMatrix.rowsConsistent, List.chain'_cons, ih, and_comm]

end population_level_simulation

namespace population_level_simulation

theorem map_get?_eq {α β : Type} (f : α → β) :
    ∀ (l : List α) (i : Nat) (h : i < l.length),
      (l.map f).get? i = some (f (l.get ⟨i, h⟩))
  | _ :: _, 0, _ => rfl
  | _ :: l, i + 1, h => map_get?_eq f l i (Nat.lt_of_succ_lt_succ h)

theorem zipWith_get?_eq {α β γ : Type} (f : α → β → γ) :
    ∀ (l1 : List α) (l2 : List β) (i : Nat) (h1 : i < l1.length)
      (h2 : i < l2.length),
      (List.zipWith f l1 l2).get? i
        = some (f (l1.get ⟨i, h1⟩) (l2.get ⟨i, h2⟩))
  | [], _, i, h1, _ => absurd h1 (Nat.not_lt_zero i)
  | _ :: _, [], i, _, h2 => absurd h2 (Nat.not_lt_zero i)
  | _ :: _, _ :: _, 0, _, _ => rfl
  | _ :: l1, _ :: l2, i + 1, h1, h2 =>
    zipWith_get?_eq f l1 l2 i (Nat.lt_of_succ_lt_succ h1)
      (Nat.lt_of_succ_lt_succ h2)

/-- C1: for every matrix and vector passing the dimension check (with rows
that fit inside the vector, as every `build`-validated matrix paired with a
dimension-matching vector does), `project_vector` returns a new vector
whose `i`-th entry is the left-to-right sum over `j` of
`row_i[j] * vector[j]`; in particular, projecting `[40, 20, 100]` with the
example matrix rows yields exactly `[10, 40, 111]`. -/
theorem project_vector_row_dot_products :
    (∀ (m : PopulationMatrix) (v : PopulationVector),
      m.get_lifestage_count = v.get_lifestage_count →
      (∀ r ∈ m.get_matrix, r.length ≤ v.get_vector.length) →
      m.project_vector v
        = .ok (PopulationVector.new (m.get_matrix.map fun r => dotLR r v.get_vector)) ∧
      ∀ (i : Nat) (hi : i < m.get_matrix.length),
        (m.get_matrix.map fun r => dotLR r v.get_vector).get? i
          = some (dotLR (m.get_matrix.get ⟨i, hi⟩) v.get_vector)) ∧
    exampleMatrix.project_vector exampleVector
      = .ok (PopulationVector.new [10, 40, 111]) := by
  constructor
  · intro m v hc hb
    refine ⟨project_vector_ok m v hc hb, ?_⟩
    intro i hi
    exact map_get?_eq (fun r => dotLR r v.get_vector) m.get_matrix i hi
  · norm_num [PopulationMatrix.project_vector, PopulationMatrix.projectRows,
      PopulationMatrix.dotRowAux, PopulationVector.get_value_at_index,
      PopulationVector.new, PopulationVector.get_lifestage_count,
      exampleMatrix, exampleVector, exampleRows, List.get?]

/-- Witness for C1: the hypotheses hold at the worked example and the
theorem applies there. -/
theorem project_vector_row_dot_products_witness :
    exampleMatrix.get_lifestage_count = exampleVector.get_lifestage_count ∧
    (∀ r ∈ exampleMatrix.get_matrix, r.length ≤ exampleVector.get_vector.length) ∧
    exampleMatrix.project_vector exampleVector
      = .ok (PopulationVector.new
          (exampleMatrix.get_matrix.map fun r => dotLR r exampleVector.get_vector)) :=
  ⟨by decide, by decide,
    (project_vector_row_dot_products.1 exampleMatrix exampleVector
      (by decide) (by decide)).1⟩

end population_level_simulation

namespace population_level_simulation

/-- C2: for every validated population (cached counts are the truncated
lengths, the matrix is square, and the vector's true length matches the
matrix's true row count) and every iteration count `n`, the constructor
accepts the pair and `deterministic_projection` returns exactly `n` stage
vectors, element `k` (0-based) being the result of applying the projection
step `k + 1` times to the initial vector; the initial vector itself is not
included, and `n = 0` yields an empty sequence with no error. -/
theorem deterministic_projection_collects_iterates
    (m : PopulationMatrix) (v : PopulationVector) (n : Nat)
    (hm : m.get_lifestage_count = m.get_matrix.length % 256)
    (hsq : ∀ r ∈ m.get_matrix, r.length = m.get_matrix.length)
    (hv : v.get_lifestage_count = v.get_vector.length % 256)
    (hdim : v.get_vector.length = m.get_matrix.length) :
    PvaDeterministicPopulation.build v m
      = .ok { initial_population := v, projection_matrix := m } ∧
    PvaDeterministicPopulation.deterministic_projection
        { initial_population := v, projection_matrix := m } n
      = .ok (PvaDeterministicOutput.new
          ((List.range n).map fun k => projectIter m v (k + 1))) ∧
    ((List.range n).map fun k => projectIter m v (k + 1)).length = n ∧
    (∀ k, RustResult.isOk (m.project_vector (projectIter m v k)) = true) ∧
    (n = 0 → (List.range n).map (fun k => projectIter m v (k + 1)) = []) := by
  have hcnt : m.lifestage_count = v.lifestage_count := by
    show m.get_lifestage_count = v.get_lifestage_count
    rw [hm, hv]
    show m.get_matrix.length % 256 = v.get_vector.length % 256
    rw [hdim]
  have hshape : VecShape m v := ⟨hv, hdim⟩
  have hloop := projectionLoop_eq m hm hsq n v hshape
  refine ⟨?_, ?_, ?_, ?_, ?_⟩
  · unfold PvaDeterministicPopulation.build
    rw [if_neg (by simp [PopulationMatrix.get_lifestage_count,
      PopulationVector.get_lifestage_count, hcnt])]
  · unfold PvaDeterministicPopulation.deterministic_projection
    rw [hloop]
  · simp
  · intro k
    exact (projectIter_shape m v hm hsq hshape k).2
  · intro hn
    subst hn
    rfl

/-- Witness for C2: the hypotheses hold at the worked example, and running
2 iterations produces the two iterates. -/
theorem deterministic_projection_collects_iterates_witness :
    examplePop.deterministic_projection 2
      = .ok (PvaDeterministicOutput.new
          ((List.range 2).map fun k => projectIter exampleMatrix exampleVector (k + 1))) :=
  (deterministic_projection_collects_iterates exampleMatrix exampleVector 2
    (by decide) (by decide) (by decide) (by decide)).2.1

/-- C3: the Rust source of `PopulationMatrix::build` evaluates
`input[0].len()` before any guard, so on the empty input it panics with the
standard out-of-bounds message instead of returning an explicit
empty-matrix error. -/
theorem build_empty_input_panics :
    PopulationMatrix.build []
      = .panicked "index out of bounds: the len is 0 but the index is 0" := rfl

end population_level_simulation

namespace population_level_simulation

/-- C4 (amended): `project_vector` fails with the dimension-mismatch error
exactly when the *cached 8-bit* stage counts (the lengths truncated mod
2^8) differ; the check runs before any indexed access, and on failure the
caller receives only that error (no other `Err` exists in the function). -/
theorem project_vector_mismatch_iff_truncated_counts
    (m : PopulationMatrix) (v : PopulationVector) :
    m.project_vector v
        = .err "the length of inputted population matrix and population vector do not match."
      ↔ m.get_lifestage_count ≠ v.get_lifestage_count := by
  unfold PopulationMatrix.project_vector
  by_cases hc : m.lifestage_count = v.get_lifestage_count
  · rw [if_neg (by simp [hc])]
    constructor
    · intro h
      cases hpr : PopulationMatrix.projectRows v m.matrix with
      | none => rw [hpr] at h; cases h
      | some l => rw [hpr] at h; cases h
    · intro h
      exact absurd hc h
  · rw [if_pos (by simpa using hc)]
    exact ⟨fun _ => hc, fun _ => rfl⟩

/-- Counterexample for C4 as stated: a `build`-validated 256-row matrix and
the empty vector have *different* row count and vector length (256 vs 0),
yet `project_vector` does not fail with the mismatch error — the truncated
counts are both 0, the check passes, and the inner loop panics instead. -/
theorem project_vector_mismatch_iff_cex :
    RustResult.isOk (PopulationMatrix.build bigRows) = true ∧
    truncMatrix.get_matrix.length = 256 ∧
    (PopulationVector.new []).get_vector.length = 0 ∧
    truncMatrix.project_vector (PopulationVector.new [])
      ≠ .err "the length of inputted population matrix and population vector do not match." ∧
    truncMatrix.project_vector (PopulationVector.new [])
      = .panicked "Index out of bounds." := by
  refine ⟨by decide, by decide, by decide, by decide, by decide⟩

/-- C5: the panic branches guarded by `.expect` are in fact reachable from
a constructor-validated population: the 256-row zero matrix wraps its `u8`
lifestage count to 0, so `build` accepts it next to the empty vector, and
the very first projection step indexes the empty vector out of bounds and
panics with "Index out of bounds.". -/
theorem validated_population_projection_panics :
    RustResult.isOk (PopulationMatrix.build bigRows) = true ∧
    PvaDeterministicPopulation.build (PopulationVector.new []) truncMatrix
      = .ok truncPop ∧
    truncPop.deterministic_projection 1 = .panicked "Index out of bounds." := by
  refine ⟨by decide, by rfl, by decide⟩

end population_level_simulation

namespace population_level_simulation

/-- C6 (amended): the constructor caches `length(values) mod 2^8` (equal to
`length(values)` whenever the list has at most 255 entries) and stores the
values unchanged, and every vector produced by a successful
`project_vector` call satisfies the same truncated-length invariant;
vectors are never mutated (every operation builds a fresh one via `new`). -/
theorem stage_count_is_truncated_length :
    (∀ values : List ℚ,
      (PopulationVector.new values).get_lifestage_count = values.length % 256 ∧
      (PopulationVector.new values).get_vector = values) ∧
    (∀ (m : PopulationMatrix) (v w : PopulationVector),
      m.project_vector v = .ok w →
      w.get_lifestage_count = w.get_vector.length % 256) := by
  constructor
  · intro values
    exact ⟨rfl, rfl⟩
  · intro m v w hw
    obtain ⟨-, l, -, hl⟩ := project_vector_ok_inv m v w hw
    subst hl
    rfl

/-- Witness for C6: applying the invariant to the output of the worked
example's projection. -/
theorem stage_count_is_truncated_length_witness :
    (PopulationVector.new (exampleRows.map fun r => dotLR r [40, 20, 100])).get_lifestage_count
      = (PopulationVector.new (exampleRows.map fun r => dotLR r [40, 20, 100])).get_vector.length % 256 :=
  stage_count_is_truncated_length.2 exampleMatrix exampleVector _ (by rfl)

/-- Counterexample for C6 as stated: a 256-entry list is cached with
`lifestage_count = 0`, not 256, because the Rust code stores
`vector.len() as u8`. -/
theorem stage_count_truncation_cex :
    (PopulationVector.new (List.replicate 256 (0 : ℚ))).get_lifestage_count = 0 ∧
    (PopulationVector.new (List.replicate 256 (0 : ℚ))).get_vector.length = 256 ∧
    (PopulationVector.new (List.replicate 256 (0 : ℚ))).get_lifestage_count
      ≠ (PopulationVector.new (List.replicate 256 (0 : ℚ))).get_vector.length := by
  refine ⟨by decide, by decide, by decide⟩

/-- C7 (amended): for non-empty input, `build` fails with the not-square
error exactly when the row count differs from the first row's length;
otherwise it fails with the ragged-rows error exactly when some adjacent
pair of rows has differing lengths; otherwise it succeeds and stores
`stage_count = (number of rows) mod 2^8` (equal to the number of rows for
at most 255 rows). -/
theorem build_shape_validation (first : List ℚ) (rest : List (List ℚ)) :
    ((first :: rest).length ≠ first.length →
      PopulationMatrix.build (first :: rest)
        = .err "Number of items in lifestages must match number of inputted sub-vectors.") ∧
    ((first :: rest).length = first.length →
      ¬ List.Chain' (fun a b : List ℚ => b.length = a.length) (first :: rest) →
      PopulationMatrix.build (first :: rest)
        = .err "All sub-vectors must be of matching lengths to construct a population matrix.") ∧
    ((first :: rest).length = first.length →
      List.Chain' (fun a b : List ℚ => b.length = a.length) (first :: rest) →
      PopulationMatrix.build (first :: rest)
        = .ok { matrix := first :: rest,
                lifestage_count := (first :: rest).length % 256 }) := by
  refine ⟨?_, ?_, ?_⟩
  · intro hne
    simp only [PopulationMatrix.build]
    rw [if_neg hne]
  · intro heq hch
    simp only [PopulationMatrix.build]
    rw [if_pos heq, if_neg (by simpa [rowsConsistent_iff_chain] using hch)]
  · intro heq hch
    simp only [PopulationMatrix.build]
    rw [if_pos heq, if_pos ((rowsConsistent_iff_chain (first :: rest)).mpr hch)]

/-- Witness for C7: the worked example's rows are square and consistent, so
`build` succeeds on them with the truncated stage count. -/
theorem build_shape_validation_witness :
    PopulationMatrix.build exampleRows
      = .ok { matrix := exampleRows, lifestage_count := exampleRows.length % 256 } :=
  (build_shape_validation [0, 0, 0.1] [[0.6, 0.8, 0], [0, 0.8, 0.95]]).2.2
    (by decide)
    ((rowsConsistent_iff_chain [[0, 0, 0.1], [0.6, 0.8, 0], [0, 0.8, 0.95]]).mp
      (by decide))

/-- Counterexample for C7 as stated: `build` succeeds on 256 square rows
but stores `stage_count = 0`, not 256. -/
theorem build_stage_count_truncation_cex :
    RustResult.isOk (PopulationMatrix.build bigRows) = true ∧
    bigRows.length = 256 ∧
    truncMatrix.get_lifestage_count = 0 ∧
    truncMatrix.get_lifestage_count ≠ bigRows.length := by
  refine ⟨by decide, by decide, by decide, by decide⟩

end population_level_simulation

namespace population_level_simulation

/-- C8: `deterministic_projection` is a pure function of the stored initial
vector, the stored matrix, and the iteration count: any two populations
with componentwise-equal data produce identical output sequences for the
same iteration count (there is no other state for a run to leave behind);
moreover the 8-iteration run on the worked example reproduces the
spec's final vector, `[24.9, 50.8, 273.5]` after rounding to one decimal. -/
theorem deterministic_projection_pure_function :
    (∀ (p₁ p₂ : PvaDeterministicPopulation) (n : Nat),
      p₁.initial_population.get_vector = p₂.initial_population.get_vector →
      p₁.initial_population.get_lifestage_count
        = p₂.initial_population.get_lifestage_count →
      p₁.projection_matrix.get_matrix = p₂.projection_matrix.get_matrix →
      p₁.projection_matrix.get_lifestage_count
        = p₂.projection_matrix.get_lifestage_count →
      p₁.deterministic_projection n = p₂.deterministic_projection n) ∧
    (outputVectors (examplePop.deterministic_projection 8)).getLast?.map
        (fun l => l.map roundTenth) = some [24.9, 50.8, 273.5] := by
  constructor
  · intro p₁ p₂ n h1 h2 h3 h4
    obtain ⟨⟨vec₁, cnt₁⟩, mat₁, mcnt₁⟩ := p₁
    obtain ⟨⟨vec₂, cnt₂⟩, mat₂, mcnt₂⟩ := p₂
    simp only [PopulationVector.get_vector, PopulationVector.get_lifestage_count,
      PopulationMatrix.get_matrix, PopulationMatrix.get_lifestage_count] at h1 h2 h3 h4
    subst h1
    subst h2
    subst h3
    subst h4
    rfl
  · norm_num [PvaDeterministicPopulation.deterministic_projection,
      PvaDeterministicPopulation.projectionLoop,
      PopulationMatrix.project_vector, PopulationMatrix.projectRows,
      PopulationMatrix.dotRowAux, PopulationVector.get_value_at_index,
      PopulationVector.new, PopulationVector.get_lifestage_count,
      examplePop, exampleMatrix, exampleVector, exampleRows, List.get?,
      outputVectors, PvaDeterministicOutput.new, PvaDeterministicOutput.return_output,
      PopulationVector.get_vector, roundTenth]

/-- Witness for C8: two syntactically different but componentwise-equal
populations produce the same 8-iteration output. -/
theorem deterministic_projection_pure_function_witness :
    examplePop.deterministic_projection 8
      = (PvaDeterministicPopulation.mk
          (PopulationVector.mk [40, 20, 100] 3)
          (PopulationMatrix.mk exampleRows 3)).deterministic_projection 8 :=
  deterministic_projection_pure_function.1 examplePop
    (PvaDeterministicPopulation.mk (PopulationVector.mk [40, 20, 100] 3)
      (PopulationMatrix.mk exampleRows 3)) 8 rfl rfl rfl rfl

/-- C9 (amended): whenever `project_vector` on a matrix respecting the
factory's count invariant returns a vector at all (it panics instead when
a row is longer than the input vector, which the truncated 8-bit check
cannot rule out), the returned vector's cached stage count equals the
input vector's cached stage count, and the inputs — plain immutable values
in this embedding, borrowed read-only in the Rust source — are unchanged
and reusable. -/
theorem project_vector_ok_stage_count (m : PopulationMatrix)
    (v w : PopulationVector)
    (hm : m.get_lifestage_count = m.get_matrix.length % 256)
    (hw : m.project_vector v = .ok w) :
    w.get_lifestage_count = v.get_lifestage_count := by
  obtain ⟨hc, l, hpr, hl⟩ := project_vector_ok_inv m v w hw
  subst hl
  show l.length % 256 = v.get_lifestage_count
  rw [projectRows_length v m.matrix l hpr]
  show m.get_matrix.length % 256 = v.get_lifestage_count
  rw [← hm]
  exact hc

/-- Witness for C9: the worked example's projection output has the same
cached stage count as the input vector. -/
theorem project_vector_ok_stage_count_witness :
    (PopulationVector.new (exampleRows.map fun r => dotLR r [40, 20, 100])).get_lifestage_count
      = exampleVector.get_lifestage_count :=
  project_vector_ok_stage_count exampleMatrix exampleVector _ (by decide) (by rfl)

/-- Counterexample for C9 as stated: the 256-row matrix and the empty
vector are accepted by the dimension check (both cached counts are 0), yet
`project_vector` returns no new stage vector at all — it panics. -/
theorem project_vector_output_stage_count_cex :
    truncMatrix.get_lifestage_count = (PopulationVector.new []).get_lifestage_count ∧
    truncMatrix.project_vector (PopulationVector.new [])
      = .panicked "Index out of bounds." := by
  refine ⟨by decide, by decide⟩

end population_level_simulation

namespace population_based_modelling

/-- The loop of `popmatrix_by_popvector` computes, for each row from index
`i` on, the row's left-to-right sum times the vector entry at the row's
index, whenever all those indices are in bounds. -/
theorem rowTotalsAux_eq (v : PopulationVector) :
    ∀ (ms : List LifestageSurvivalVector) (i : Nat),
      i + ms.length ≤ v.vector.length →
      rowTotalsAux v i ms
        = some (List.zipWith (fun ls x => ls.get_vector.foldl (· + ·) 0 * x) ms
            (v.vector.drop i)) := by
  intro ms
  induction ms with
  | nil => intro i _; rfl
  | cons ls rest ih =>
    intro i h
    rw [List.length_cons] at h
    obtain ⟨x, hx⟩ :=
      population_level_simulation.get?_isSome_of_lt v.vector i (by omega)
    have hx2 : v.get_value_at_index i = some x := hx
    simp only [rowTotalsAux, hx2]
    rw [ih (i + 1) (by omega)]
    rw [population_level_simulation.get?_drop_cons v.vector i x hx]
    rfl

/-- C10: for every `lib.rs` matrix and vector with matching *actual*
lengths, `popmatrix_by_popvector` returns `Ok` of a vector whose `i`-th
entry is the sum of all entries of row `i` multiplied by `vector[i]` — a
row-sum-times-entry computation, not the dot product of
`project_vector`. -/
theorem popmatrix_by_popvector_row_sums
    (matrix : PopulationMatrix) (vector : PopulationVector)
    (h : matrix.matrix.length = vector.vector.length) :
    popmatrix_by_popvector matrix vector
      = .ok (PopulationVector.new
          (List.zipWith (fun ls x => ls.get_vector.foldl (· + ·) 0 * x)
            matrix.matrix vector.vector)) ∧
    ∀ (i : Nat) (hi : i < matrix.matrix.length)
      (hiv : i < vector.vector.length),
      (List.zipWith (fun ls x => ls.get_vector.foldl (· + ·) 0 * x)
          matrix.matrix vector.vector).get? i
        = some ((matrix.matrix.get ⟨i, hi⟩).get_vector.foldl (· + ·) 0
            * vector.vector.get ⟨i, hiv⟩) := by
  constructor
  · unfold popmatrix_by_popvector
    rw [if_neg (by simp [h])]
    rw [rowTotalsAux_eq vector matrix.matrix 0 (by omega), List.drop_zero]
  · intro i hi hiv
    exact population_level_simulation.zipWith_get?_eq
      (fun ls x => ls.get_vector.foldl (· + ·) 0 * x)
      matrix.matrix vector.vector i hi hiv

/-- Witness for C10: the hypothesis holds at the `lib.rs` unit-test data
(3 rows, 3 entries) and the theorem applies there. -/
theorem popmatrix_by_popvector_row_sums_witness :
    popmatrix_by_popvector libExampleMatrix libExampleVector
      = .ok (PopulationVector.new
          (List.zipWith (fun ls x => ls.get_vector.foldl (· + ·) 0 * x)
            libExampleMatrix.matrix libExampleVector.vector)) :=
  (popmatrix_by_popvector_row_sums libExampleMatrix libExampleVector
    (by decide)).1

end population_based_modelling
